import Mathlib

/-!
# Strided random accessors (`aten/src/ATen/native/StridedRandomAccessor.h`)

A shallow embedding of the three class templates of the header

* `ConstStridedRandomAccessor<T, index_t, PtrTraits>`,
* `StridedRandomAccessor<T, index_t, PtrTraits>` (publicly derived from the former),
* `IndexedRandomAccessor<ValueAccessor, IndexAccessor>`,

followed by theorems about their operators.

## Modelling conventions

* A pointer `PtrType` (`T*`) is an element address: an integer counting elements of
  type `T`, so `ptr + n` is the address `n` elements further and `ptr - other.ptr`
  is the number of elements between two addresses.  `nullptr` is address `0`.
* `index_t` (default `int64_t`) and `difference_type` (`ptrdiff_t`) are signed
  integers.  Signed overflow and pointer arithmetic leaving the representable range
  are undefined behaviour in C++, so on every defined execution the machine result is
  the mathematical one; the embedding uses mathematical integers throughout.
* The memory behind the pointers is a flat store `Memory T` from element addresses to
  values.  The header performs no bounds checks, so neither does the model.
* A C++ reference (`const T&`, `T&`) is the address of the designated element; it is
  read with `Memory.load` and, when it is a `T&`, assigned through with
  `Memory.store`.
* A member function that modifies `*this` and returns something is a function from
  the old object to the pair `(new value of *this, returned value)`.  When the C++
  function returns `*this` by reference, the second component is the value of the
  object the reference designates, that is the updated object.
-/

/-- Element address, the model of `typename PtrTraits<T>::PtrType`. -/
abbrev PtrType := Int

/-- The template parameter `index_t` (default `int64_t`). -/
abbrev index_t := Int

/-- The member type `difference_type = ptrdiff_t`. -/
abbrev difference_type := Int

/-- The null pointer constant. -/
def nullptr : PtrType := 0

/-- Flat store of elements of type `T`, indexed by element address. -/
abbrev Memory (T : Type) := PtrType → T

namespace Memory

/-- Reading through a reference: the value stored at address `loc`. -/
def load {T : Type} (mem : Memory T) (loc : PtrType) : T :=
  mem loc

/-- Assigning `v` through a writable reference designating address `loc`. -/
def store {T : Type} (mem : Memory T) (loc : PtrType) (v : T) : Memory T :=
  fun q => if q = loc then v else mem q

end Memory

/-- The class `ConstStridedRandomAccessor`: data members `ptr` and `stride`. -/
structure ConstStridedRandomAccessor where
  ptr : PtrType
  stride : index_t
deriving DecidableEq, Repr

namespace ConstStridedRandomAccessor

/-- Constructor `ConstStridedRandomAccessor(PtrType ptr, index_t stride)`. -/
def ctor (ptr : PtrType) (stride : index_t) : ConstStridedRandomAccessor :=
  { ptr := ptr, stride := stride }

/-- Constructor `explicit ConstStridedRandomAccessor(PtrType ptr)`. -/
def ctor_ptr (ptr : PtrType) : ConstStridedRandomAccessor :=
  { ptr := ptr, stride := 1 }

/-- Constructor `ConstStridedRandomAccessor()`. -/
def ctor_default : ConstStridedRandomAccessor :=
  { ptr := nullptr, stride := 1 }

/-- Member `reference operator*() const`: `return *ptr;`. -/
def operator_deref (self : ConstStridedRandomAccessor) : PtrType :=
  self.ptr

/-- Member `const value_type* operator->() const`. -/
def operator_arrow (self : ConstStridedRandomAccessor) : PtrType :=
  self.ptr

/-- Member `reference operator[](index_t idx) const`: `return ptr[idx * stride];`. -/
def operator_index (self : ConstStridedRandomAccessor) (idx : index_t) : PtrType :=
  self.ptr + idx * self.stride

/-- Prefix `operator++()`: `ptr += stride; return *this;`. -/
def operator_pre_inc (self : ConstStridedRandomAccessor) :
    ConstStridedRandomAccessor × ConstStridedRandomAccessor :=
  let self1 := { self with ptr := self.ptr + self.stride }
  (self1, self1)

/-- Postfix `operator++(int)`: `auto copy = *this; ++*this; return copy;`. -/
def operator_post_inc (self : ConstStridedRandomAccessor) :
    ConstStridedRandomAccessor × ConstStridedRandomAccessor :=
  let copy := self
  let self1 := (operator_pre_inc self).1
  (self1, copy)

/-- Prefix `operator--()`: `ptr -= stride; return *this;`. -/
def operator_pre_dec (self : ConstStridedRandomAccessor) :
    ConstStridedRandomAccessor × ConstStridedRandomAccessor :=
  let self1 := { self with ptr := self.ptr - self.stride }
  (self1, self1)

/-- Postfix `operator--(int)`: `auto copy = *this; --*this; return copy;`. -/
def operator_post_dec (self : ConstStridedRandomAccessor) :
    ConstStridedRandomAccessor × ConstStridedRandomAccessor :=
  let copy := self
  let self1 := (operator_pre_dec self).1
  (self1, copy)

/-- Member `operator+=(index_t offset)`: `ptr += offset * stride; return *this;`. -/
def operator_plus_assign (self : ConstStridedRandomAccessor) (offset : index_t) :
    ConstStridedRandomAccessor × ConstStridedRandomAccessor :=
  let self1 := { self with ptr := self.ptr + offset * self.stride }
  (self1, self1)

/-- Member `operator+(index_t offset) const`:
`return ConstStridedRandomAccessor(ptr + offset * stride, stride);`. -/
def operator_plus (self : ConstStridedRandomAccessor) (offset : index_t) :
    ConstStridedRandomAccessor :=
  ctor (self.ptr + offset * self.stride) self.stride

/-- Friend `operator+(index_t offset, const ConstStridedRandomAccessor& accessor)`:
`return accessor + offset;`. -/
def operator_plus_left (offset : index_t) (accessor : ConstStridedRandomAccessor) :
    ConstStridedRandomAccessor :=
  accessor.operator_plus offset

/-- Member `operator-=(index_t offset)`: `ptr -= offset * stride; return *this;`. -/
def operator_minus_assign (self : ConstStridedRandomAccessor) (offset : index_t) :
    ConstStridedRandomAccessor × ConstStridedRandomAccessor :=
  let self1 := { self with ptr := self.ptr - offset * self.stride }
  (self1, self1)

/-- Member `operator-(index_t offset) const`:
`return ConstStridedRandomAccessor(ptr - offset * stride, stride);`. -/
def operator_minus (self : ConstStridedRandomAccessor) (offset : index_t) :
    ConstStridedRandomAccessor :=
  ctor (self.ptr - offset * self.stride) self.stride

/-- Member `difference_type operator-(const ConstStridedRandomAccessor& other) const`:
`return ptr - other.ptr;`. -/
def operator_diff (self other : ConstStridedRandomAccessor) : difference_type :=
  self.ptr - other.ptr

/-- Member `operator==`: `return (ptr == other.ptr) && (stride == other.stride);`. -/
def operator_eq (self other : ConstStridedRandomAccessor) : Bool :=
  (self.ptr == other.ptr) && (self.stride == other.stride)

/-- Member `operator!=`: `return !(*this == other);`. -/
def operator_ne (self other : ConstStridedRandomAccessor) : Bool :=
  !(self.operator_eq other)

/-- Member `operator<`: `return ptr < other.ptr;`. -/
def operator_lt (self other : ConstStridedRandomAccessor) : Bool :=
  decide (self.ptr < other.ptr)

/-- Member `operator<=`: `return (*this < other) || (*this == other);`. -/
def operator_le (self other : ConstStridedRandomAccessor) : Bool :=
  (self.operator_lt other) || (self.operator_eq other)

/-- Member `operator>`: `return !(*this <= other);`. -/
def operator_gt (self other : ConstStridedRandomAccessor) : Bool :=
  !(self.operator_le other)

/-- Member `operator>=`: `return !(*this < other);`. -/
def operator_ge (self other : ConstStridedRandomAccessor) : Bool :=
  !(self.operator_lt other)

end ConstStridedRandomAccessor

/-- The class `StridedRandomAccessor`, publicly derived from
`ConstStridedRandomAccessor` (`BaseType`); it adds no data member. -/
structure StridedRandomAccessor extends ConstStridedRandomAccessor
deriving DecidableEq, Repr

namespace StridedRandomAccessor

/-- Constructor `StridedRandomAccessor(PtrType ptr, index_t stride) : BaseType(ptr, stride)`. -/
def ctor (ptr : PtrType) (stride : index_t) : StridedRandomAccessor :=
  { toConstStridedRandomAccessor := ConstStridedRandomAccessor.ctor ptr stride }

/-- Constructor `explicit StridedRandomAccessor(PtrType ptr) : BaseType(ptr)`. -/
def ctor_ptr (ptr : PtrType) : StridedRandomAccessor :=
  { toConstStridedRandomAccessor := ConstStridedRandomAccessor.ctor_ptr ptr }

/-- Constructor `StridedRandomAccessor() : BaseType()`. -/
def ctor_default : StridedRandomAccessor :=
  { toConstStridedRandomAccessor := ConstStridedRandomAccessor.ctor_default }

/-- Member `reference operator*() const`: `return *this->ptr;` (a writable `T&`). -/
def operator_deref (self : StridedRandomAccessor) : PtrType :=
  self.ptr

/-- Member `value_type* operator->() const`. -/
def operator_arrow (self : StridedRandomAccessor) : PtrType :=
  self.ptr

/-- Member `reference operator[](index_t idx) const`:
`return this->ptr[idx * this->stride];` (a writable `T&`). -/
def operator_index_const (self : StridedRandomAccessor) (idx : index_t) : PtrType :=
  self.ptr + idx * self.stride

/-- Member `const reference operator[](index_t idx)` (the overload for a non-const
object; `const` applied to the reference type `T&` has no effect):
`return this->ptr[idx * this->stride];`. -/
def operator_index (self : StridedRandomAccessor) (idx : index_t) : PtrType :=
  self.ptr + idx * self.stride

/-- Prefix `operator++()`: `this->ptr += this->stride; return *this;`. -/
def operator_pre_inc (self : StridedRandomAccessor) :
    StridedRandomAccessor × StridedRandomAccessor :=
  let self1 := { self with ptr := self.ptr + self.stride }
  (self1, self1)

/-- Postfix `operator++(int)`: `auto copy = *this; ++*this; return copy;`. -/
def operator_post_inc (self : StridedRandomAccessor) :
    StridedRandomAccessor × StridedRandomAccessor :=
  let copy := self
  let self1 := (operator_pre_inc self).1
  (self1, copy)

/-- Prefix `operator--()`: `this->ptr -= this->stride; return *this;`. -/
def operator_pre_dec (self : StridedRandomAccessor) :
    StridedRandomAccessor × StridedRandomAccessor :=
  let self1 := { self with ptr := self.ptr - self.stride }
  (self1, self1)

/-- Postfix `operator--(int)`: `auto copy = *this; --*this; return copy;`. -/
def operator_post_dec (self : StridedRandomAccessor) :
    StridedRandomAccessor × StridedRandomAccessor :=
  let copy := self
  let self1 := (operator_pre_dec self).1
  (self1, copy)

/-- Member `operator+=(index_t offset)`:
`this->ptr += offset * this->stride; return *this;`. -/
def operator_plus_assign (self : StridedRandomAccessor) (offset : index_t) :
    StridedRandomAccessor × StridedRandomAccessor :=
  let self1 := { self with ptr := self.ptr + offset * self.stride }
  (self1, self1)

/-- Member `operator+(index_t offset) const`:
`return StridedRandomAccessor(this->ptr + offset * this->stride, this->stride);`. -/
def operator_plus (self : StridedRandomAccessor) (offset : index_t) :
    StridedRandomAccessor :=
  ctor (self.ptr + offset * self.stride) self.stride

/-- Friend `operator+(index_t offset, const StridedRandomAccessor& accessor)`:
`return accessor + offset;`. -/
def operator_plus_left (offset : index_t) (accessor : StridedRandomAccessor) :
    StridedRandomAccessor :=
  accessor.operator_plus offset

/-- Member `operator-=(index_t offset)`:
`this->ptr -= offset * this->stride; return *this;`. -/
def operator_minus_assign (self : StridedRandomAccessor) (offset : index_t) :
    StridedRandomAccessor × StridedRandomAccessor :=
  let self1 := { self with ptr := self.ptr - offset * self.stride }
  (self1, self1)

/-- Member `operator-(index_t offset) const`:
`return StridedRandomAccessor(this->ptr - offset * this->stride, this->stride);`. -/
def operator_minus (self : StridedRandomAccessor) (offset : index_t) :
    StridedRandomAccessor :=
  ctor (self.ptr - offset * self.stride) self.stride

/-- Member `difference_type operator-(const BaseType& other) const`:
`return static_cast<const BaseType&>(*this) - other;`. -/
def operator_diff (self : StridedRandomAccessor) (other : ConstStridedRandomAccessor) :
    difference_type :=
  self.toConstStridedRandomAccessor.operator_diff other

/-- Inherited `BaseType::operator==`, both operands converted to `const BaseType&`. -/
def operator_eq (self other : StridedRandomAccessor) : Bool :=
  self.toConstStridedRandomAccessor.operator_eq other.toConstStridedRandomAccessor

/-- Inherited `BaseType::operator!=`. -/
def operator_ne (self other : StridedRandomAccessor) : Bool :=
  self.toConstStridedRandomAccessor.operator_ne other.toConstStridedRandomAccessor

/-- Inherited `BaseType::operator<`. -/
def operator_lt (self other : StridedRandomAccessor) : Bool :=
  self.toConstStridedRandomAccessor.operator_lt other.toConstStridedRandomAccessor

/-- Inherited `BaseType::operator<=`. -/
def operator_le (self other : StridedRandomAccessor) : Bool :=
  self.toConstStridedRandomAccessor.operator_le other.toConstStridedRandomAccessor

/-- Inherited `BaseType::operator>`. -/
def operator_gt (self other : StridedRandomAccessor) : Bool :=
  self.toConstStridedRandomAccessor.operator_gt other.toConstStridedRandomAccessor

/-- Inherited `BaseType::operator>=`. -/
def operator_ge (self other : StridedRandomAccessor) : Bool :=
  self.toConstStridedRandomAccessor.operator_ge other.toConstStridedRandomAccessor

end StridedRandomAccessor

/-- The class `IndexedRandomAccessor`: data members `va` and `ia`; the header declares
its member types and one constructor and no operator. -/
structure IndexedRandomAccessor (ValueAccessor IndexAccessor : Type) where
  va : ValueAccessor
  ia : IndexAccessor

namespace IndexedRandomAccessor

/-- Constructor `IndexedRandomAccessor(ValueAccessor va, IndexAccessor ia)`. -/
def ctor {ValueAccessor IndexAccessor : Type} (va : ValueAccessor) (ia : IndexAccessor) :
    IndexedRandomAccessor ValueAccessor IndexAccessor :=
  { va := va, ia := ia }

end IndexedRandomAccessor

/-! ## Sanity checks of the embedding on concrete inputs -/

example : (ConstStridedRandomAccessor.ctor 5 3).operator_plus 4 = ⟨17, 3⟩ := by decide
example : (StridedRandomAccessor.ctor 5 (-2)).operator_minus 4 = ⟨⟨13, -2⟩⟩ := by decide
example : (ConstStridedRandomAccessor.ctor 5 3).operator_index 2 = 11 := by decide
example : (ConstStridedRandomAccessor.ctor 5 3).operator_post_inc = (⟨8, 3⟩, ⟨5, 3⟩) := by decide
example : (ConstStridedRandomAccessor.ctor 0 1).operator_le (ConstStridedRandomAccessor.ctor 0 2) = false := by
  decide
example : (ConstStridedRandomAccessor.ctor 0 1).operator_gt (ConstStridedRandomAccessor.ctor 0 2) = true := by
  decide
example : (ConstStridedRandomAccessor.ctor 9 3).operator_diff (ConstStridedRandomAccessor.ctor 0 3) = 9 := by
  decide

/-! ## Offset arithmetic and element access -/

/-- C1: for an accessor `a` (read-only `c` or mutable `m`) at position `p` with
stride `s` and any integer `k`, `a + k` is the accessor at position `p + k*s` with
stride `s`, so dereferencing `a + k` reads the memory element at `p + k*s`; likewise
`a - k` is the accessor at position `p - k*s` with stride `s`. -/
theorem offset_accessor_position {T : Type} (mem : Memory T)
    (c : ConstStridedRandomAccessor) (m : StridedRandomAccessor) (k : index_t) :
    ((c.operator_plus k).ptr = c.ptr + k * c.stride
      ∧ (c.operator_plus k).stride = c.stride
      ∧ mem.load (c.operator_plus k).operator_deref = mem (c.ptr + k * c.stride)
      ∧ (c.operator_minus k).ptr = c.ptr - k * c.stride
      ∧ (c.operator_minus k).stride = c.stride
      ∧ mem.load (c.operator_minus k).operator_deref = mem (c.ptr - k * c.stride))
    ∧ ((m.operator_plus k).ptr = m.ptr + k * m.stride
      ∧ (m.operator_plus k).stride = m.stride
      ∧ mem.load (m.operator_plus k).operator_deref = mem (m.ptr + k * m.stride)
      ∧ (m.operator_minus k).ptr = m.ptr - k * m.stride
      ∧ (m.operator_minus k).stride = m.stride
      ∧ mem.load (m.operator_minus k).operator_deref = mem (m.ptr - k * m.stride)) :=
  ⟨⟨rfl, rfl, rfl, rfl, rfl, rfl⟩, ⟨rfl, rfl, rfl, rfl, rfl, rfl⟩⟩

/-- C2: for an accessor `a` (read-only `c` or mutable `m`, either overload of the
mutable `operator[]`) at position `p` with stride `s` and any integer `i`, `a[i]` reads
the memory element at `p + i*s`, which is the element that dereferencing `a + i`
reads, and `a[0]` is the element that dereferencing `a` reads. -/
theorem indexed_access_element {T : Type} (mem : Memory T)
    (c : ConstStridedRandomAccessor) (m : StridedRandomAccessor) (i : index_t) :
    (mem.load (c.operator_index i) = mem (c.ptr + i * c.stride)
      ∧ mem.load (c.operator_index i) = mem.load (c.operator_plus i).operator_deref
      ∧ mem.load (c.operator_index 0) = mem.load c.operator_deref)
    ∧ (mem.load (m.operator_index i) = mem (m.ptr + i * m.stride)
      ∧ mem.load (m.operator_index i) = mem.load (m.operator_plus i).operator_deref
      ∧ mem.load (m.operator_index 0) = mem.load m.operator_deref)
    ∧ (mem.load (m.operator_index_const i) = mem (m.ptr + i * m.stride)
      ∧ mem.load (m.operator_index_const i) = mem.load (m.operator_plus i).operator_deref
      ∧ mem.load (m.operator_index_const 0) = mem.load m.operator_deref) := by
  have hc : c.operator_index 0 = c.operator_deref := by
    simp [ConstStridedRandomAccessor.operator_index, ConstStridedRandomAccessor.operator_deref]
  have hm : m.operator_index 0 = m.operator_deref := by
    simp [StridedRandomAccessor.operator_index, StridedRandomAccessor.operator_deref]
  have hm2 : m.operator_index_const 0 = m.operator_deref := by
    simp [StridedRandomAccessor.operator_index_const, StridedRandomAccessor.operator_deref]
  exact ⟨⟨rfl, rfl, by rw [hc]⟩, ⟨rfl, rfl, by rw [hm]⟩, ⟨rfl, rfl, by rw [hm2]⟩⟩

/-- C3: for an accessor `a` (read-only `c` or mutable `m`) and any integer `k`, the
integer-on-the-left sum `k + a` equals `a + k` under `operator==`: it has the same
position and the same stride. -/
theorem plus_left_eq_plus (c : ConstStridedRandomAccessor) (m : StridedRandomAccessor)
    (k : index_t) :
    ((ConstStridedRandomAccessor.operator_plus_left k c).operator_eq (c.operator_plus k) = true
      ∧ (c.operator_plus k).operator_eq (ConstStridedRandomAccessor.operator_plus_left k c) = true
      ∧ (ConstStridedRandomAccessor.operator_plus_left k c).ptr = (c.operator_plus k).ptr
      ∧ (ConstStridedRandomAccessor.operator_plus_left k c).stride = (c.operator_plus k).stride)
    ∧ ((StridedRandomAccessor.operator_plus_left k m).operator_eq (m.operator_plus k) = true
      ∧ (m.operator_plus k).operator_eq (StridedRandomAccessor.operator_plus_left k m) = true
      ∧ (StridedRandomAccessor.operator_plus_left k m).ptr = (m.operator_plus k).ptr
      ∧ (StridedRandomAccessor.operator_plus_left k m).stride = (m.operator_plus k).stride) := by
  refine ⟨⟨?_, ?_, rfl, rfl⟩, ⟨?_, ?_, rfl, rfl⟩⟩ <;>
    simp [ConstStridedRandomAccessor.operator_plus_left, StridedRandomAccessor.operator_plus_left,
      ConstStridedRandomAccessor.operator_eq, StridedRandomAccessor.operator_eq]

/-- C4: for an accessor `a` (read-only `c` or mutable `m`) and any integer `k`,
`(a + k) - k` equals `a` under `operator==`, with position and stride both restored,
and symmetrically `(a - k) + k` equals `a`. -/
theorem plus_minus_round_trip (c : ConstStridedRandomAccessor) (m : StridedRandomAccessor)
    (k : index_t) :
    (((c.operator_plus k).operator_minus k).operator_eq c = true
      ∧ ((c.operator_plus k).operator_minus k).ptr = c.ptr
      ∧ ((c.operator_plus k).operator_minus k).stride = c.stride
      ∧ ((c.operator_minus k).operator_plus k).operator_eq c = true
      ∧ ((c.operator_minus k).operator_plus k).ptr = c.ptr
      ∧ ((c.operator_minus k).operator_plus k).stride = c.stride)
    ∧ (((m.operator_plus k).operator_minus k).operator_eq m = true
      ∧ ((m.operator_plus k).operator_minus k).ptr = m.ptr
      ∧ ((m.operator_plus k).operator_minus k).stride = m.stride
      ∧ ((m.operator_minus k).operator_plus k).operator_eq m = true
      ∧ ((m.operator_minus k).operator_plus k).ptr = m.ptr
      ∧ ((m.operator_minus k).operator_plus k).stride = m.stride) := by
  simp [ConstStridedRandomAccessor.operator_plus, ConstStridedRandomAccessor.operator_minus,
    ConstStridedRandomAccessor.ctor, ConstStridedRandomAccessor.operator_eq,
    StridedRandomAccessor.operator_plus, StridedRandomAccessor.operator_minus,
    StridedRandomAccessor.ctor, StridedRandomAccessor.operator_eq]

/-- C5: for an accessor `a` (read-only `c` or mutable `m`), prefix increment followed
by prefix decrement (`++a; --a`) leaves `a` at its original position with its original
stride, so the result equals the original under `operator==`; the same holds for
decrement followed by increment. -/
theorem pre_inc_pre_dec_restores (c : ConstStridedRandomAccessor) (m : StridedRandomAccessor) :
    ((c.operator_pre_inc.1.operator_pre_dec.1).ptr = c.ptr
      ∧ (c.operator_pre_inc.1.operator_pre_dec.1).stride = c.stride
      ∧ (c.operator_pre_inc.1.operator_pre_dec.1).operator_eq c = true
      ∧ (c.operator_pre_dec.1.operator_pre_inc.1).ptr = c.ptr
      ∧ (c.operator_pre_dec.1.operator_pre_inc.1).stride = c.stride
      ∧ (c.operator_pre_dec.1.operator_pre_inc.1).operator_eq c = true)
    ∧ ((m.operator_pre_inc.1.operator_pre_dec.1).ptr = m.ptr
      ∧ (m.operator_pre_inc.1.operator_pre_dec.1).stride = m.stride
      ∧ (m.operator_pre_inc.1.operator_pre_dec.1).operator_eq m = true
      ∧ (m.operator_pre_dec.1.operator_pre_inc.1).ptr = m.ptr
      ∧ (m.operator_pre_dec.1.operator_pre_inc.1).stride = m.stride
      ∧ (m.operator_pre_dec.1.operator_pre_inc.1).operator_eq m = true) := by
  simp [ConstStridedRandomAccessor.operator_pre_inc, ConstStridedRandomAccessor.operator_pre_dec,
    ConstStridedRandomAccessor.operator_eq,
    StridedRandomAccessor.operator_pre_inc, StridedRandomAccessor.operator_pre_dec,
    StridedRandomAccessor.operator_eq]

/-! ## Equality, difference and ordering -/

/-- C6: for accessors `a` and `b` (read-only, or mutable `x` and `y` through the
inherited operators), `a == b` holds iff the positions are equal and the strides are
equal, `a != b` is exactly its negation, and an accessor with stride 2 at position `p`
is not equal to an accessor with stride 1 at the same `p`. -/
theorem eq_iff_same_position_and_stride (a b : ConstStridedRandomAccessor)
    (x y : StridedRandomAccessor) (p : PtrType) :
    ((a.operator_eq b = true ↔ a.ptr = b.ptr ∧ a.stride = b.stride)
      ∧ a.operator_ne b = !(a.operator_eq b)
      ∧ (a.operator_ne b = true ↔ ¬ (a.ptr = b.ptr ∧ a.stride = b.stride))
      ∧ (ConstStridedRandomAccessor.ctor p 2).operator_eq (ConstStridedRandomAccessor.ctor p 1) = false
      ∧ (ConstStridedRandomAccessor.ctor p 2).operator_ne (ConstStridedRandomAccessor.ctor p 1) = true)
    ∧ ((x.operator_eq y = true ↔ x.ptr = y.ptr ∧ x.stride = y.stride)
      ∧ x.operator_ne y = !(x.operator_eq y)
      ∧ (x.operator_ne y = true ↔ ¬ (x.ptr = y.ptr ∧ x.stride = y.stride))
      ∧ (StridedRandomAccessor.ctor p 2).operator_eq (StridedRandomAccessor.ctor p 1) = false
      ∧ (StridedRandomAccessor.ctor p 2).operator_ne (StridedRandomAccessor.ctor p 1) = true) := by
  simp [ConstStridedRandomAccessor.operator_eq, ConstStridedRandomAccessor.operator_ne,
    ConstStridedRandomAccessor.ctor, StridedRandomAccessor.operator_eq,
    StridedRandomAccessor.operator_ne, StridedRandomAccessor.ctor]
  constructor <;> tauto

/-- C7: for accessors `a` and `b` of any strides, read-only or mutable, the
difference `a - b` is `position(a) - position(b)` in raw memory elements and is not
divided by the stride: a stride-3 accessor at `p + 9` minus a stride-3 accessor at `p`
yields `9`, not `3`. -/
theorem diff_is_raw_position_difference (a b : ConstStridedRandomAccessor)
    (x y : StridedRandomAccessor) (p : PtrType) :
    a.operator_diff b = a.ptr - b.ptr
    ∧ x.operator_diff b = x.ptr - b.ptr
    ∧ x.operator_diff y.toConstStridedRandomAccessor = x.ptr - y.ptr
    ∧ a.operator_diff x.toConstStridedRandomAccessor = a.ptr - x.ptr
    ∧ (ConstStridedRandomAccessor.ctor (p + 9) 3).operator_diff
        (ConstStridedRandomAccessor.ctor p 3) = 9
    ∧ (StridedRandomAccessor.ctor (p + 9) 3).operator_diff
        (ConstStridedRandomAccessor.ctor p 3) = 9
    ∧ (ConstStridedRandomAccessor.ctor (p + 9) 3).operator_diff
        (ConstStridedRandomAccessor.ctor p 3) ≠ 3 := by
  simp [ConstStridedRandomAccessor.operator_diff, StridedRandomAccessor.operator_diff,
    ConstStridedRandomAccessor.ctor, StridedRandomAccessor.ctor]

/-- C8: for accessors `a` and `b` (read-only, or mutable `x` and `y` through the
inherited operator), whatever their strides, `a < b` holds iff
`position(a) < position(b)`. -/
theorem lt_iff_position_lt (a b : ConstStridedRandomAccessor) (x y : StridedRandomAccessor) :
    (a.operator_lt b = true ↔ a.ptr < b.ptr)
    ∧ (x.operator_lt y = true ↔ x.ptr < y.ptr) := by
  simp [ConstStridedRandomAccessor.operator_lt, StridedRandomAccessor.operator_lt]

/-- C9: the code at the failing input.  For the read-only accessors `a` at position `0`
with stride `1` and `b` at position `0` with stride `2`, `position(a) <= position(b)`
holds while `a <= b` returns false, and `a > b` returns true while
`position(a) > position(b)` is false; so `operator<=` and `operator>` are not decided
by the positions alone, as the claim requires of all four ordering operators.  The
sibling operators disagree with them at the same input: `b >= a` returns true although
`a <= b` returns false, and `b > a` returns true together with `a > b`. -/
theorem le_gt_not_by_position_alone :
    ((ConstStridedRandomAccessor.ctor 0 1).operator_le (ConstStridedRandomAccessor.ctor 0 2) = false
      ∧ (ConstStridedRandomAccessor.ctor 0 1).ptr ≤ (ConstStridedRandomAccessor.ctor 0 2).ptr)
    ∧ ((ConstStridedRandomAccessor.ctor 0 1).operator_gt (ConstStridedRandomAccessor.ctor 0 2) = true
      ∧ ¬ (ConstStridedRandomAccessor.ctor 0 1).ptr > (ConstStridedRandomAccessor.ctor 0 2).ptr)
    ∧ ((ConstStridedRandomAccessor.ctor 0 2).operator_ge (ConstStridedRandomAccessor.ctor 0 1) = true
      ∧ (ConstStridedRandomAccessor.ctor 0 2).operator_gt (ConstStridedRandomAccessor.ctor 0 1) = true
      ∧ (ConstStridedRandomAccessor.ctor 0 1).operator_lt (ConstStridedRandomAccessor.ctor 0 2) = false
      ∧ (ConstStridedRandomAccessor.ctor 0 1).operator_ge (ConstStridedRandomAccessor.ctor 0 2) = true)
    ∧ ¬ (∀ a b : ConstStridedRandomAccessor,
          (a.operator_le b = true ↔ a.ptr ≤ b.ptr)
          ∧ (a.operator_gt b = true ↔ a.ptr > b.ptr)
          ∧ (a.operator_ge b = true ↔ a.ptr ≥ b.ptr)) := by
  refine ⟨⟨by decide, by decide⟩, ⟨by decide, by decide⟩,
    ⟨by decide, by decide, by decide, by decide⟩, ?_⟩
  intro h
  have h1 := (h (ConstStridedRandomAccessor.ctor 0 1) (ConstStridedRandomAccessor.ctor 0 2)).1
  exact absurd (h1.2 (by decide)) (by decide)

/-- Where the ordering operators are decided by the positions: `a >= b` holds iff
`position(a) >= position(b)` for all accessors, whatever their strides; for accessors
that have equal strides or different positions, `a <= b` holds iff
`position(a) <= position(b)` and `a > b` holds iff `position(a) > position(b)`.
Stated for the read-only accessors `a`, `b` and, through the inherited operators, for
the mutable accessors `x`, `y`. -/
theorem ordering_by_position (a b : ConstStridedRandomAccessor) (x y : StridedRandomAccessor) :
    ((a.operator_ge b = true ↔ a.ptr ≥ b.ptr)
      ∧ (a.stride = b.stride ∨ a.ptr ≠ b.ptr →
          (a.operator_le b = true ↔ a.ptr ≤ b.ptr)
          ∧ (a.operator_gt b = true ↔ a.ptr > b.ptr)))
    ∧ ((x.operator_ge y = true ↔ x.ptr ≥ y.ptr)
      ∧ (x.stride = y.stride ∨ x.ptr ≠ y.ptr →
          (x.operator_le y = true ↔ x.ptr ≤ y.ptr)
          ∧ (x.operator_gt y = true ↔ x.ptr > y.ptr))) := by
  simp only [StridedRandomAccessor.operator_ge, StridedRandomAccessor.operator_le,
    StridedRandomAccessor.operator_gt, StridedRandomAccessor.operator_lt,
    StridedRandomAccessor.operator_eq]
  have key : ∀ c d : ConstStridedRandomAccessor,
      (c.operator_ge d = true ↔ c.ptr ≥ d.ptr)
      ∧ (c.stride = d.stride ∨ c.ptr ≠ d.ptr →
          (c.operator_le d = true ↔ c.ptr ≤ d.ptr)
          ∧ (c.operator_gt d = true ↔ c.ptr > d.ptr)) := by
    intro c d
    refine ⟨?_, ?_⟩
    · simp [ConstStridedRandomAccessor.operator_ge, ConstStridedRandomAccessor.operator_lt]
    · intro h
      simp only [ConstStridedRandomAccessor.operator_gt, ConstStridedRandomAccessor.operator_le,
        ConstStridedRandomAccessor.operator_lt, ConstStridedRandomAccessor.operator_eq,
        Bool.not_eq_true', Bool.or_eq_true, Bool.or_eq_false_iff, Bool.and_eq_true,
        Bool.and_eq_false_iff, decide_eq_true_eq, decide_eq_false_iff_not, beq_iff_eq,
        beq_eq_false_iff_ne, ne_eq]
      unfold PtrType at *
      constructor
      · constructor
        · rintro (h1 | ⟨h1, _⟩) <;> omega
        · intro h1
          rcases h with h | h
          · by_cases h2 : c.ptr = d.ptr
            · exact Or.inr ⟨h2, h⟩
            · exact Or.inl (lt_of_le_of_ne h1 h2)
          · exact Or.inl (by omega)
      · constructor
        · rintro ⟨h1, h2 | h2⟩
          · omega
          · rcases h with h | h
            · exact absurd h h2
            · omega
        · intro h1
          exact ⟨by omega, Or.inl (by omega)⟩
  exact ⟨key a b, key x.toConstStridedRandomAccessor y.toConstStridedRandomAccessor⟩

/-- Instance of `ordering_by_position` at accessors with different strides and
different positions. -/
theorem ordering_by_position_witness :
    ((ConstStridedRandomAccessor.ctor 2 3).stride = (ConstStridedRandomAccessor.ctor 5 7).stride
        ∨ (ConstStridedRandomAccessor.ctor 2 3).ptr ≠ (ConstStridedRandomAccessor.ctor 5 7).ptr)
    ∧ (((ConstStridedRandomAccessor.ctor 2 3).operator_le (ConstStridedRandomAccessor.ctor 5 7) = true
          ↔ (ConstStridedRandomAccessor.ctor 2 3).ptr ≤ (ConstStridedRandomAccessor.ctor 5 7).ptr)
      ∧ ((ConstStridedRandomAccessor.ctor 2 3).operator_gt (ConstStridedRandomAccessor.ctor 5 7) = true
          ↔ (ConstStridedRandomAccessor.ctor 2 3).ptr > (ConstStridedRandomAccessor.ctor 5 7).ptr))
    ∧ ((StridedRandomAccessor.ctor 4 6).stride = (StridedRandomAccessor.ctor 4 6).stride
        ∨ (StridedRandomAccessor.ctor 4 6).ptr ≠ (StridedRandomAccessor.ctor 4 6).ptr)
    ∧ (((StridedRandomAccessor.ctor 4 6).operator_le (StridedRandomAccessor.ctor 4 6) = true
          ↔ (StridedRandomAccessor.ctor 4 6).ptr ≤ (StridedRandomAccessor.ctor 4 6).ptr)
      ∧ ((StridedRandomAccessor.ctor 4 6).operator_gt (StridedRandomAccessor.ctor 4 6) = true
          ↔ (StridedRandomAccessor.ctor 4 6).ptr > (StridedRandomAccessor.ctor 4 6).ptr)) :=
  ⟨Or.inr (by decide),
    (ordering_by_position (ConstStridedRandomAccessor.ctor 2 3) (ConstStridedRandomAccessor.ctor 5 7)
      (StridedRandomAccessor.ctor 4 6) (StridedRandomAccessor.ctor 4 6)).1.2 (Or.inr (by decide)),
    Or.inl rfl,
    (ordering_by_position (ConstStridedRandomAccessor.ctor 2 3) (ConstStridedRandomAccessor.ctor 5 7)
      (StridedRandomAccessor.ctor 4 6) (StridedRandomAccessor.ctor 4 6)).2.2 (Or.inl rfl)⟩

/-! ## Writing through a mutable accessor -/

/-- Effect of one store: the written address holds the new value, every other address
keeps its old value. -/
theorem Memory.store_effect {T : Type} (mem : Memory T) (loc : PtrType) (v : T) :
    (mem.store loc v) loc = v ∧ ∀ q : PtrType, q ≠ loc → (mem.store loc v) q = mem q := by
  constructor
  · simp [Memory.store]
  · intro q hq
    simp [Memory.store, hq]

/-- C10: for every memory `mem`, mutable accessor `m` at position `p` with stride `s`,
integer `i` and value `v`: assigning `v` through `m[i]` (either overload of the mutable
`operator[]`), or through `*m` when `i = 0`, changes the element at `p + i*s` to `v`
and leaves every other element unchanged; afterwards every read-only accessor `r` and
every mutable accessor `w` that addresses `p + i*s`, by dereference or by indexed
access, reads `v`. -/
theorem store_through_mutable_accessor {T : Type} (mem : Memory T)
    (m : StridedRandomAccessor) (i : index_t) (v : T) :
    ((mem.store (m.operator_index i) v) (m.ptr + i * m.stride) = v
      ∧ (∀ q : PtrType, q ≠ m.ptr + i * m.stride →
          (mem.store (m.operator_index i) v) q = mem q)
      ∧ (∀ (r : ConstStridedRandomAccessor) (j : index_t),
          r.ptr + j * r.stride = m.ptr + i * m.stride →
          (mem.store (m.operator_index i) v).load (r.operator_index j) = v)
      ∧ (∀ r : ConstStridedRandomAccessor, r.ptr = m.ptr + i * m.stride →
          (mem.store (m.operator_index i) v).load r.operator_deref = v)
      ∧ (∀ (w : StridedRandomAccessor) (j : index_t),
          w.ptr + j * w.stride = m.ptr + i * m.stride →
          (mem.store (m.operator_index i) v).load (w.operator_index j) = v
          ∧ (mem.store (m.operator_index i) v).load (w.operator_index_const j) = v)
      ∧ (∀ w : StridedRandomAccessor, w.ptr = m.ptr + i * m.stride →
          (mem.store (m.operator_index i) v).load w.operator_deref = v))
    ∧ mem.store (m.operator_index_const i) v = mem.store (m.operator_index i) v
    ∧ (i = 0 → mem.store m.operator_deref v = mem.store (m.operator_index i) v)
    ∧ ((mem.store m.operator_deref v) m.ptr = v
      ∧ (∀ q : PtrType, q ≠ m.ptr → (mem.store m.operator_deref v) q = mem q)
      ∧ (∀ (r : ConstStridedRandomAccessor) (j : index_t), r.ptr + j * r.stride = m.ptr →
          (mem.store m.operator_deref v).load (r.operator_index j) = v)
      ∧ (∀ r : ConstStridedRandomAccessor, r.ptr = m.ptr →
          (mem.store m.operator_deref v).load r.operator_deref = v)
      ∧ (∀ (w : StridedRandomAccessor) (j : index_t), w.ptr + j * w.stride = m.ptr →
          (mem.store m.operator_deref v).load (w.operator_index j) = v
          ∧ (mem.store m.operator_deref v).load (w.operator_index_const j) = v)
      ∧ (∀ w : StridedRandomAccessor, w.ptr = m.ptr →
          (mem.store m.operator_deref v).load w.operator_deref = v)) := by
  have hidx : m.operator_index i = m.ptr + i * m.stride := rfl
  have hder : m.operator_deref = m.ptr := rfl
  rw [hidx, hder]
  have hi := Memory.store_effect mem (m.ptr + i * m.stride) v
  have hd := Memory.store_effect mem m.ptr v
  refine ⟨⟨hi.1, hi.2, ?_, ?_, ?_, ?_⟩, rfl, ?_, ⟨hd.1, hd.2, ?_, ?_, ?_, ?_⟩⟩
  · intro r j h
    simp only [Memory.load, ConstStridedRandomAccessor.operator_index, h]
    exact hi.1
  · intro r h
    simp only [Memory.load, ConstStridedRandomAccessor.operator_deref, h]
    exact hi.1
  · intro w j h
    simp only [Memory.load, StridedRandomAccessor.operator_index,
      StridedRandomAccessor.operator_index_const, h]
    exact ⟨hi.1, hi.1⟩
  · intro w h
    simp only [Memory.load, StridedRandomAccessor.operator_deref, h]
    exact hi.1
  · intro h0
    subst h0
    simp
  · intro r j h
    simp only [Memory.load, ConstStridedRandomAccessor.operator_index, h]
    exact hd.1
  · intro r h
    simp only [Memory.load, ConstStridedRandomAccessor.operator_deref, h]
    exact hd.1
  · intro w j h
    simp only [Memory.load, StridedRandomAccessor.operator_index,
      StridedRandomAccessor.operator_index_const, h]
    exact ⟨hd.1, hd.1⟩
  · intro w h
    simp only [Memory.load, StridedRandomAccessor.operator_deref, h]
    exact hd.1

/-- Instance of `store_through_mutable_accessor`: in a memory of zeros, `7` is stored
through `m[4]` for `m` at position `2` with stride `3` (address `14`), and through `*m`
and `m[0]` (address `2`); address `5` keeps its `0`, and accessors of other positions
and strides that address the written element read `7`. -/
theorem store_through_mutable_accessor_witness :
    ((5 : PtrType) ≠ (StridedRandomAccessor.ctor 2 3).ptr + 4 * (StridedRandomAccessor.ctor 2 3).stride
      ∧ (Memory.store (fun _ => (0 : Nat)) ((StridedRandomAccessor.ctor 2 3).operator_index 4) 7) 5 = 0)
    ∧ ((ConstStridedRandomAccessor.ctor 20 (-2)).ptr + 3 * (ConstStridedRandomAccessor.ctor 20 (-2)).stride
          = (StridedRandomAccessor.ctor 2 3).ptr + 4 * (StridedRandomAccessor.ctor 2 3).stride
      ∧ (Memory.store (fun _ => (0 : Nat)) ((StridedRandomAccessor.ctor 2 3).operator_index 4) 7).load
          ((ConstStridedRandomAccessor.ctor 20 (-2)).operator_index 3) = 7)
    ∧ ((ConstStridedRandomAccessor.ctor_ptr 14).ptr
          = (StridedRandomAccessor.ctor 2 3).ptr + 4 * (StridedRandomAccessor.ctor 2 3).stride
      ∧ (Memory.store (fun _ => (0 : Nat)) ((StridedRandomAccessor.ctor 2 3).operator_index 4) 7).load
          (ConstStridedRandomAccessor.ctor_ptr 14).operator_deref = 7)
    ∧ ((StridedRandomAccessor.ctor 4 5).ptr + 2 * (StridedRandomAccessor.ctor 4 5).stride
          = (StridedRandomAccessor.ctor 2 3).ptr + 4 * (StridedRandomAccessor.ctor 2 3).stride
      ∧ (Memory.store (fun _ => (0 : Nat)) ((StridedRandomAccessor.ctor 2 3).operator_index 4) 7).load
          ((StridedRandomAccessor.ctor 4 5).operator_index 2) = 7)
    ∧ ((StridedRandomAccessor.ctor 14 9).ptr
          = (StridedRandomAccessor.ctor 2 3).ptr + 4 * (StridedRandomAccessor.ctor 2 3).stride
      ∧ (Memory.store (fun _ => (0 : Nat)) ((StridedRandomAccessor.ctor 2 3).operator_index 4) 7).load
          (StridedRandomAccessor.ctor 14 9).operator_deref = 7)
    ∧ ((0 : index_t) = 0
      ∧ Memory.store (fun _ => (0 : Nat)) (StridedRandomAccessor.ctor 2 3).operator_deref 7
          = Memory.store (fun _ => (0 : Nat)) ((StridedRandomAccessor.ctor 2 3).operator_index 0) 7)
    ∧ ((5 : PtrType) ≠ (StridedRandomAccessor.ctor 2 3).ptr
      ∧ (Memory.store (fun _ => (0 : Nat)) (StridedRandomAccessor.ctor 2 3).operator_deref 7) 5 = 0)
    ∧ ((ConstStridedRandomAccessor.ctor 20 (-2)).ptr + 9 * (ConstStridedRandomAccessor.ctor 20 (-2)).stride
          = (StridedRandomAccessor.ctor 2 3).ptr
      ∧ (Memory.store (fun _ => (0 : Nat)) (StridedRandomAccessor.ctor 2 3).operator_deref 7).load
          ((ConstStridedRandomAccessor.ctor 20 (-2)).operator_index 9) = 7)
    ∧ ((ConstStridedRandomAccessor.ctor_ptr 2).ptr = (StridedRandomAccessor.ctor 2 3).ptr
      ∧ (Memory.store (fun _ => (0 : Nat)) (StridedRandomAccessor.ctor 2 3).operator_deref 7).load
          (ConstStridedRandomAccessor.ctor_ptr 2).operator_deref = 7)
    ∧ ((StridedRandomAccessor.ctor 12 5).ptr + (-2) * (StridedRandomAccessor.ctor 12 5).stride
          = (StridedRandomAccessor.ctor 2 3).ptr
      ∧ (Memory.store (fun _ => (0 : Nat)) (StridedRandomAccessor.ctor 2 3).operator_deref 7).load
          ((StridedRandomAccessor.ctor 12 5).operator_index_const (-2)) = 7)
    ∧ ((StridedRandomAccessor.ctor 2 9).ptr = (StridedRandomAccessor.ctor 2 3).ptr
      ∧ (Memory.store (fun _ => (0 : Nat)) (StridedRandomAccessor.ctor 2 3).operator_deref 7).load
          (StridedRandomAccessor.ctor 2 9).operator_deref = 7) :=
  have h4 := store_through_mutable_accessor (fun _ => (0 : Nat)) (StridedRandomAccessor.ctor 2 3) 4 7
  have h0 := store_through_mutable_accessor (fun _ => (0 : Nat)) (StridedRandomAccessor.ctor 2 3) 0 7
  ⟨⟨by decide, h4.1.2.1 5 (by decide)⟩,
    ⟨by decide, h4.1.2.2.1 (ConstStridedRandomAccessor.ctor 20 (-2)) 3 (by decide)⟩,
    ⟨by decide, h4.1.2.2.2.1 (ConstStridedRandomAccessor.ctor_ptr 14) (by decide)⟩,
    ⟨by decide, (h4.1.2.2.2.2.1 (StridedRandomAccessor.ctor 4 5) 2 (by decide)).1⟩,
    ⟨by decide, h4.1.2.2.2.2.2 (StridedRandomAccessor.ctor 14 9) (by decide)⟩,
    ⟨rfl, h0.2.2.1 rfl⟩,
    ⟨by decide, h4.2.2.2.2.1 5 (by decide)⟩,
    ⟨by decide, h4.2.2.2.2.2.1 (ConstStridedRandomAccessor.ctor 20 (-2)) 9 (by decide)⟩,
    ⟨by decide, h4.2.2.2.2.2.2.1 (ConstStridedRandomAccessor.ctor_ptr 2) (by decide)⟩,
    ⟨by decide, (h4.2.2.2.2.2.2.2.1 (StridedRandomAccessor.ctor 12 5) (-2) (by decide)).2⟩,
    ⟨by decide, h4.2.2.2.2.2.2.2.2 (StridedRandomAccessor.ctor 2 9) (by decide)⟩⟩

/-! ## The mutable accessor against the read-only accessor -/

/-- C11: the mutable accessor is substitutable for the read-only accessor: for every
mutable accessor `m` (any position and stride), read-only accessor `b` and integer `k`,
each operation that `StridedRandomAccessor` redefines (prefix and postfix `++` and
`--`, `+=`, `-=`, `a + k`, `k + a`, `a - k`, `a - b`, dereference and both overloads of
indexed access) leaves the same position and stride in `*this`, returns an accessor
with the same position and stride, returns the same difference, and reads the same
memory element as the corresponding `ConstStridedRandomAccessor` operation applied to
the base part of `m`, which has the same position and stride. -/
theorem mutable_refines_const {T : Type} (mem : Memory T) (m : StridedRandomAccessor)
    (b : ConstStridedRandomAccessor) (k : index_t) :
    (m.operator_pre_inc.1.toConstStridedRandomAccessor
        = m.toConstStridedRandomAccessor.operator_pre_inc.1
      ∧ m.operator_pre_inc.2.toConstStridedRandomAccessor
        = m.toConstStridedRandomAccessor.operator_pre_inc.2
      ∧ m.operator_post_inc.1.toConstStridedRandomAccessor
        = m.toConstStridedRandomAccessor.operator_post_inc.1
      ∧ m.operator_post_inc.2.toConstStridedRandomAccessor
        = m.toConstStridedRandomAccessor.operator_post_inc.2
      ∧ m.operator_pre_dec.1.toConstStridedRandomAccessor
        = m.toConstStridedRandomAccessor.operator_pre_dec.1
      ∧ m.operator_pre_dec.2.toConstStridedRandomAccessor
        = m.toConstStridedRandomAccessor.operator_pre_dec.2
      ∧ m.operator_post_dec.1.toConstStridedRandomAccessor
        = m.toConstStridedRandomAccessor.operator_post_dec.1
      ∧ m.operator_post_dec.2.toConstStridedRandomAccessor
        = m.toConstStridedRandomAccessor.operator_post_dec.2)
    ∧ ((m.operator_plus_assign k).1.toConstStridedRandomAccessor
        = (m.toConstStridedRandomAccessor.operator_plus_assign k).1
      ∧ (m.operator_plus_assign k).2.toConstStridedRandomAccessor
        = (m.toConstStridedRandomAccessor.operator_plus_assign k).2
      ∧ (m.operator_minus_assign k).1.toConstStridedRandomAccessor
        = (m.toConstStridedRandomAccessor.operator_minus_assign k).1
      ∧ (m.operator_minus_assign k).2.toConstStridedRandomAccessor
        = (m.toConstStridedRandomAccessor.operator_minus_assign k).2)
    ∧ ((m.operator_plus k).toConstStridedRandomAccessor
        = m.toConstStridedRandomAccessor.operator_plus k
      ∧ (StridedRandomAccessor.operator_plus_left k m).toConstStridedRandomAccessor
        = ConstStridedRandomAccessor.operator_plus_left k m.toConstStridedRandomAccessor
      ∧ (m.operator_minus k).toConstStridedRandomAccessor
        = m.toConstStridedRandomAccessor.operator_minus k)
    ∧ m.operator_diff b = m.toConstStridedRandomAccessor.operator_diff b
    ∧ (m.operator_deref = m.toConstStridedRandomAccessor.operator_deref
      ∧ mem.load m.operator_deref = mem.load m.toConstStridedRandomAccessor.operator_deref
      ∧ m.operator_index k = m.toConstStridedRandomAccessor.operator_index k
      ∧ mem.load (m.operator_index k)
        = mem.load (m.toConstStridedRandomAccessor.operator_index k)
      ∧ m.operator_index_const k = m.toConstStridedRandomAccessor.operator_index k
      ∧ mem.load (m.operator_index_const k)
        = mem.load (m.toConstStridedRandomAccessor.operator_index k)) :=
  ⟨⟨rfl, rfl, rfl, rfl, rfl, rfl, rfl, rfl⟩, ⟨rfl, rfl, rfl, rfl⟩, ⟨rfl, rfl, rfl⟩, rfl,
    ⟨rfl, rfl, rfl, rfl, rfl, rfl⟩⟩

/-! ## Increment, decrement and compound assignment -/

/-- C12: for an accessor `a` (read-only `c` or mutable `m`) at position `p` with stride
`s`: prefix `++a` leaves `a` at position `p + s` and returns that updated accessor;
postfix `a++` also leaves `a` at position `p + s` but returns an accessor equal to the
original; prefix `--a` and postfix `a--` move `a` to `p - s`, the postfix form
returning the accessor as it was before the move.  The stride stays `s` throughout. -/
theorem prefix_and_postfix_results (c : ConstStridedRandomAccessor)
    (m : StridedRandomAccessor) :
    ((c.operator_pre_inc.1 = ConstStridedRandomAccessor.ctor (c.ptr + c.stride) c.stride
        ∧ c.operator_pre_inc.2 = c.operator_pre_inc.1)
      ∧ (c.operator_post_inc.1 = ConstStridedRandomAccessor.ctor (c.ptr + c.stride) c.stride
        ∧ c.operator_post_inc.2 = c
        ∧ c.operator_post_inc.2.operator_eq c = true)
      ∧ (c.operator_pre_dec.1 = ConstStridedRandomAccessor.ctor (c.ptr - c.stride) c.stride
        ∧ c.operator_pre_dec.2 = c.operator_pre_dec.1)
      ∧ (c.operator_post_dec.1 = ConstStridedRandomAccessor.ctor (c.ptr - c.stride) c.stride
        ∧ c.operator_post_dec.2 = c
        ∧ c.operator_post_dec.2.operator_eq c = true))
    ∧ ((m.operator_pre_inc.1 = StridedRandomAccessor.ctor (m.ptr + m.stride) m.stride
        ∧ m.operator_pre_inc.2 = m.operator_pre_inc.1)
      ∧ (m.operator_post_inc.1 = StridedRandomAccessor.ctor (m.ptr + m.stride) m.stride
        ∧ m.operator_post_inc.2 = m
        ∧ m.operator_post_inc.2.operator_eq m = true)
      ∧ (m.operator_pre_dec.1 = StridedRandomAccessor.ctor (m.ptr - m.stride) m.stride
        ∧ m.operator_pre_dec.2 = m.operator_pre_dec.1)
      ∧ (m.operator_post_dec.1 = StridedRandomAccessor.ctor (m.ptr - m.stride) m.stride
        ∧ m.operator_post_dec.2 = m
        ∧ m.operator_post_dec.2.operator_eq m = true)) := by
  have hc : c.operator_eq c = true := by simp [ConstStridedRandomAccessor.operator_eq]
  have hm : m.operator_eq m = true := by
    simp [StridedRandomAccessor.operator_eq, ConstStridedRandomAccessor.operator_eq]
  exact ⟨⟨⟨rfl, rfl⟩, ⟨rfl, rfl, hc⟩, ⟨rfl, rfl⟩, ⟨rfl, rfl, hc⟩⟩,
    ⟨⟨rfl, rfl⟩, ⟨rfl, rfl, hm⟩, ⟨rfl, rfl⟩, ⟨rfl, rfl, hm⟩⟩⟩

/-- C13: for an accessor `a` (read-only `c` or mutable `m`) and any integer `k`, the
in-place `a += k` leaves `a` equal under `operator==` to `a + k` computed from the
original `a`, `a -= k` leaves `a` equal to the original `a - k`, and the returned
reference denotes that updated accessor. -/
theorem compound_assignment_results (c : ConstStridedRandomAccessor)
    (m : StridedRandomAccessor) (k : index_t) :
    (((c.operator_plus_assign k).1.operator_eq (c.operator_plus k) = true
        ∧ (c.operator_plus_assign k).1 = c.operator_plus k
        ∧ (c.operator_plus_assign k).2 = (c.operator_plus_assign k).1)
      ∧ ((c.operator_minus_assign k).1.operator_eq (c.operator_minus k) = true
        ∧ (c.operator_minus_assign k).1 = c.operator_minus k
        ∧ (c.operator_minus_assign k).2 = (c.operator_minus_assign k).1))
    ∧ (((m.operator_plus_assign k).1.operator_eq (m.operator_plus k) = true
        ∧ (m.operator_plus_assign k).1 = m.operator_plus k
        ∧ (m.operator_plus_assign k).2 = (m.operator_plus_assign k).1)
      ∧ ((m.operator_minus_assign k).1.operator_eq (m.operator_minus k) = true
        ∧ (m.operator_minus_assign k).1 = m.operator_minus k
        ∧ (m.operator_minus_assign k).2 = (m.operator_minus_assign k).1)) := by
  refine ⟨⟨⟨?_, rfl, rfl⟩, ⟨?_, rfl, rfl⟩⟩, ⟨⟨?_, rfl, rfl⟩, ⟨?_, rfl, rfl⟩⟩⟩ <;>
    simp [ConstStridedRandomAccessor.operator_plus_assign,
      ConstStridedRandomAccessor.operator_minus_assign,
      ConstStridedRandomAccessor.operator_plus, ConstStridedRandomAccessor.operator_minus,
      ConstStridedRandomAccessor.ctor, ConstStridedRandomAccessor.operator_eq,
      StridedRandomAccessor.operator_plus_assign, StridedRandomAccessor.operator_minus_assign,
      StridedRandomAccessor.operator_plus, StridedRandomAccessor.operator_minus,
      StridedRandomAccessor.ctor, StridedRandomAccessor.operator_eq]

/-! ## Construction -/

/-- C14: a default-constructed accessor (read-only or mutable) has the null position
and stride 1; an accessor constructed from a pointer `p` alone has position `p` and
stride 1; an accessor constructed from `(p, s)` has exactly position `p` and stride
`s`. -/
theorem constructor_results (p : PtrType) (s : index_t) :
    ((ConstStridedRandomAccessor.ctor_default.ptr = nullptr
        ∧ ConstStridedRandomAccessor.ctor_default.stride = 1)
      ∧ ((ConstStridedRandomAccessor.ctor_ptr p).ptr = p
        ∧ (ConstStridedRandomAccessor.ctor_ptr p).stride = 1)
      ∧ ((ConstStridedRandomAccessor.ctor p s).ptr = p
        ∧ (ConstStridedRandomAccessor.ctor p s).stride = s))
    ∧ ((StridedRandomAccessor.ctor_default.ptr = nullptr
        ∧ StridedRandomAccessor.ctor_default.stride = 1)
      ∧ ((StridedRandomAccessor.ctor_ptr p).ptr = p
        ∧ (StridedRandomAccessor.ctor_ptr p).stride = 1)
      ∧ ((StridedRandomAccessor.ctor p s).ptr = p
        ∧ (StridedRandomAccessor.ctor p s).stride = s)) :=
  ⟨⟨⟨rfl, rfl⟩, ⟨rfl, rfl⟩, ⟨rfl, rfl⟩⟩, ⟨⟨rfl, rfl⟩, ⟨rfl, rfl⟩, ⟨rfl, rfl⟩⟩⟩

/-! ## The comparison operators on accessors of one stride -/

/-- The comparison operators of two read-only accessors with equal strides, expressed by
their positions. -/
theorem ConstStridedRandomAccessor.comparisons_of_same_stride
    (a b : ConstStridedRandomAccessor) (h : a.stride = b.stride) :
    (a.operator_lt b = true ↔ a.ptr < b.ptr)
    ∧ (a.operator_eq b = true ↔ a.ptr = b.ptr)
    ∧ (a.operator_le b = true ↔ a.ptr ≤ b.ptr)
    ∧ (a.operator_gt b = true ↔ b.ptr < a.ptr)
    ∧ (a.operator_ge b = true ↔ b.ptr ≤ a.ptr) := by
  have hle : a.operator_le b = true ↔ a.ptr ≤ b.ptr := by
    simp only [ConstStridedRandomAccessor.operator_le, ConstStridedRandomAccessor.operator_lt,
      ConstStridedRandomAccessor.operator_eq, h, Bool.or_eq_true, Bool.and_eq_true,
      decide_eq_true_eq, beq_iff_eq, and_true]
    exact le_iff_lt_or_eq.symm
  refine ⟨?_, ?_, hle, ?_, ?_⟩
  · simp [ConstStridedRandomAccessor.operator_lt]
  · simp [ConstStridedRandomAccessor.operator_eq, h]
  · rw [← not_le, ← hle]
    simp [ConstStridedRandomAccessor.operator_gt]
  · simp [ConstStridedRandomAccessor.operator_ge, ConstStridedRandomAccessor.operator_lt]

/-- The order facts about three integer positions used for accessors of one stride. -/
theorem position_order_facts (p q r : Int) :
    ((p < q ∨ p = q ∨ q < p) ∧ ¬ (p < q ∧ p = q) ∧ ¬ (p < q ∧ q < p) ∧ ¬ (p = q ∧ q < p))
    ∧ (p ≤ q ↔ ¬ q < p)
    ∧ (q ≤ p ↔ ¬ p < q)
    ∧ (p ≤ q → q ≤ p → p = q)
    ∧ (p < q → q < r → p < r) := by
  refine ⟨⟨?_, ?_, ?_, ?_⟩, ?_, ?_, ?_, ?_⟩ <;> omega

/-- The laws of a total order for three integer positions, in the form the comparison
operators of accessors of one stride reduce to. -/
theorem position_total_order_facts (p q r : Int) :
    p ≤ p
    ∧ (p ≤ q ∨ q ≤ p)
    ∧ (p ≤ q → q ≤ r → p ≤ r)
    ∧ (q < p ↔ q < p)
    ∧ (q ≤ p ↔ q ≤ p)
    ∧ (p < q ↔ p ≤ q ∧ ¬ q ≤ p) := by
  refine ⟨?_, ?_, ?_, Iff.rfl, Iff.rfl, ?_⟩ <;> omega

/-- C16: restricted to accessors that share one stride, the comparison operators form
a total order on positions.  For `a`, `b`, `c` of one stride (read-only, or mutable
`x`, `y`, `z` through the inherited operators): each of `a < b`, `a == b`, `a <= b`,
`a > b`, `a >= b` holds iff the positions stand in the relation `<`, `=`, `<=`, `>`,
`>=`; exactly one of `a < b`, `a == b`, `a > b` holds; `a <= b` iff not `a > b`;
`a >= b` iff not `a < b`; `a <= b` and `b <= a` together imply `a == b`; `a < b` with
`b < c` implies `a < c`; `<=` is reflexive, connex (`a <= b` or `b <= a`) and
transitive; `a > b` iff `b < a`; `a >= b` iff `b <= a`; and `a < b` iff `a <= b` and
not `b <= a`. -/
theorem total_order_on_same_stride (a b c : ConstStridedRandomAccessor)
    (x y z : StridedRandomAccessor)
    (hab : a.stride = b.stride) (hbc : b.stride = c.stride)
    (hxy : x.stride = y.stride) (hyz : y.stride = z.stride) :
    (((a.operator_lt b = true ↔ a.ptr < b.ptr)
        ∧ (a.operator_eq b = true ↔ a.ptr = b.ptr)
        ∧ (a.operator_le b = true ↔ a.ptr ≤ b.ptr)
        ∧ (a.operator_gt b = true ↔ b.ptr < a.ptr)
        ∧ (a.operator_ge b = true ↔ b.ptr ≤ a.ptr))
      ∧ (((a.operator_lt b = true ∨ a.operator_eq b = true ∨ a.operator_gt b = true)
          ∧ ¬ (a.operator_lt b = true ∧ a.operator_eq b = true)
          ∧ ¬ (a.operator_lt b = true ∧ a.operator_gt b = true)
          ∧ ¬ (a.operator_eq b = true ∧ a.operator_gt b = true))
        ∧ (a.operator_le b = true ↔ ¬ a.operator_gt b = true)
        ∧ (a.operator_ge b = true ↔ ¬ a.operator_lt b = true)
        ∧ (a.operator_le b = true → b.operator_le a = true → a.operator_eq b = true)
        ∧ (a.operator_lt b = true → b.operator_lt c = true → a.operator_lt c = true))
      ∧ (a.operator_le a = true
        ∧ (a.operator_le b = true ∨ b.operator_le a = true)
        ∧ (a.operator_le b = true → b.operator_le c = true → a.operator_le c = true)
        ∧ (a.operator_gt b = true ↔ b.operator_lt a = true)
        ∧ (a.operator_ge b = true ↔ b.operator_le a = true)
        ∧ (a.operator_lt b = true ↔ a.operator_le b = true ∧ ¬ b.operator_le a = true)))
    ∧ (((x.operator_lt y = true ↔ x.ptr < y.ptr)
        ∧ (x.operator_eq y = true ↔ x.ptr = y.ptr)
        ∧ (x.operator_le y = true ↔ x.ptr ≤ y.ptr)
        ∧ (x.operator_gt y = true ↔ y.ptr < x.ptr)
        ∧ (x.operator_ge y = true ↔ y.ptr ≤ x.ptr))
      ∧ (((x.operator_lt y = true ∨ x.operator_eq y = true ∨ x.operator_gt y = true)
          ∧ ¬ (x.operator_lt y = true ∧ x.operator_eq y = true)
          ∧ ¬ (x.operator_lt y = true ∧ x.operator_gt y = true)
          ∧ ¬ (x.operator_eq y = true ∧ x.operator_gt y = true))
        ∧ (x.operator_le y = true ↔ ¬ x.operator_gt y = true)
        ∧ (x.operator_ge y = true ↔ ¬ x.operator_lt y = true)
        ∧ (x.operator_le y = true → y.operator_le x = true → x.operator_eq y = true)
        ∧ (x.operator_lt y = true → y.operator_lt z = true → x.operator_lt z = true))
      ∧ (x.operator_le x = true
        ∧ (x.operator_le y = true ∨ y.operator_le x = true)
        ∧ (x.operator_le y = true → y.operator_le z = true → x.operator_le z = true)
        ∧ (x.operator_gt y = true ↔ y.operator_lt x = true)
        ∧ (x.operator_ge y = true ↔ y.operator_le x = true)
        ∧ (x.operator_lt y = true ↔ x.operator_le y = true ∧ ¬ y.operator_le x = true))) := by
  have key : ∀ d e f : ConstStridedRandomAccessor, d.stride = e.stride → e.stride = f.stride →
      (((d.operator_lt e = true ↔ d.ptr < e.ptr)
        ∧ (d.operator_eq e = true ↔ d.ptr = e.ptr)
        ∧ (d.operator_le e = true ↔ d.ptr ≤ e.ptr)
        ∧ (d.operator_gt e = true ↔ e.ptr < d.ptr)
        ∧ (d.operator_ge e = true ↔ e.ptr ≤ d.ptr))
      ∧ (((d.operator_lt e = true ∨ d.operator_eq e = true ∨ d.operator_gt e = true)
          ∧ ¬ (d.operator_lt e = true ∧ d.operator_eq e = true)
          ∧ ¬ (d.operator_lt e = true ∧ d.operator_gt e = true)
          ∧ ¬ (d.operator_eq e = true ∧ d.operator_gt e = true))
        ∧ (d.operator_le e = true ↔ ¬ d.operator_gt e = true)
        ∧ (d.operator_ge e = true ↔ ¬ d.operator_lt e = true)
        ∧ (d.operator_le e = true → e.operator_le d = true → d.operator_eq e = true)
        ∧ (d.operator_lt e = true → e.operator_lt f = true → d.operator_lt f = true))
      ∧ (d.operator_le d = true
        ∧ (d.operator_le e = true ∨ e.operator_le d = true)
        ∧ (d.operator_le e = true → e.operator_le f = true → d.operator_le f = true)
        ∧ (d.operator_gt e = true ↔ e.operator_lt d = true)
        ∧ (d.operator_ge e = true ↔ e.operator_le d = true)
        ∧ (d.operator_lt e = true ↔ d.operator_le e = true ∧ ¬ e.operator_le d = true))) := by
    intro d e f hde hef
    have h0 := ConstStridedRandomAccessor.comparisons_of_same_stride d d rfl
    have h1 := ConstStridedRandomAccessor.comparisons_of_same_stride d e hde
    have h2 := ConstStridedRandomAccessor.comparisons_of_same_stride e d hde.symm
    have h3 := ConstStridedRandomAccessor.comparisons_of_same_stride e f hef
    have h4 := ConstStridedRandomAccessor.comparisons_of_same_stride d f (hde.trans hef)
    refine ⟨h1, ?_, ?_⟩
    · rw [h1.1, h1.2.1, h1.2.2.1, h1.2.2.2.1, h1.2.2.2.2, h2.2.2.1, h3.1, h4.1]
      exact position_order_facts d.ptr e.ptr f.ptr
    · rw [h0.2.2.1, h1.2.2.1, h2.2.2.1, h3.2.2.1, h4.2.2.1, h1.2.2.2.1, h2.1, h1.2.2.2.2,
        h1.1]
      exact position_total_order_facts d.ptr e.ptr f.ptr
  exact ⟨key a b c hab hbc,
    key x.toConstStridedRandomAccessor y.toConstStridedRandomAccessor
      z.toConstStridedRandomAccessor hxy hyz⟩

/-- Instance of `total_order_on_same_stride`: accessors of stride 2 at positions 1, 3
and 5 for the order facts, and an accessor compared with a copy of itself for
antisymmetry. -/
theorem total_order_on_same_stride_witness :
    ((ConstStridedRandomAccessor.ctor 1 2).stride = (ConstStridedRandomAccessor.ctor 3 2).stride
      ∧ (ConstStridedRandomAccessor.ctor 3 2).stride = (ConstStridedRandomAccessor.ctor 5 2).stride
      ∧ (StridedRandomAccessor.ctor 1 2).stride = (StridedRandomAccessor.ctor 3 2).stride
      ∧ (StridedRandomAccessor.ctor 3 2).stride = (StridedRandomAccessor.ctor 5 2).stride)
    ∧ (ConstStridedRandomAccessor.ctor 1 2).operator_lt (ConstStridedRandomAccessor.ctor 5 2) = true
    ∧ (StridedRandomAccessor.ctor 1 2).operator_lt (StridedRandomAccessor.ctor 5 2) = true
    ∧ ((ConstStridedRandomAccessor.ctor 1 2).operator_le (ConstStridedRandomAccessor.ctor 3 2) = true
      ↔ ¬ (ConstStridedRandomAccessor.ctor 1 2).operator_gt (ConstStridedRandomAccessor.ctor 3 2) = true)
    ∧ (ConstStridedRandomAccessor.ctor 4 7).operator_eq (ConstStridedRandomAccessor.ctor 4 7) = true
    ∧ (StridedRandomAccessor.ctor 4 7).operator_eq (StridedRandomAccessor.ctor 4 7) = true
    ∧ (ConstStridedRandomAccessor.ctor 1 2).operator_le (ConstStridedRandomAccessor.ctor 5 2) = true
    ∧ (StridedRandomAccessor.ctor 1 2).operator_le (StridedRandomAccessor.ctor 5 2) = true
    ∧ ((ConstStridedRandomAccessor.ctor 1 2).operator_le (ConstStridedRandomAccessor.ctor 3 2) = true
      ↔ (ConstStridedRandomAccessor.ctor 1 2).ptr ≤ (ConstStridedRandomAccessor.ctor 3 2).ptr)
    ∧ ((StridedRandomAccessor.ctor 1 2).operator_gt (StridedRandomAccessor.ctor 3 2) = true
      ↔ (StridedRandomAccessor.ctor 3 2).ptr < (StridedRandomAccessor.ctor 1 2).ptr)
    ∧ ((ConstStridedRandomAccessor.ctor 1 2).operator_le (ConstStridedRandomAccessor.ctor 3 2) = true
      ∨ (ConstStridedRandomAccessor.ctor 3 2).operator_le (ConstStridedRandomAccessor.ctor 1 2) = true) :=
  have h := total_order_on_same_stride
    (ConstStridedRandomAccessor.ctor 1 2) (ConstStridedRandomAccessor.ctor 3 2)
    (ConstStridedRandomAccessor.ctor 5 2)
    (StridedRandomAccessor.ctor 1 2) (StridedRandomAccessor.ctor 3 2)
    (StridedRandomAccessor.ctor 5 2) rfl rfl rfl rfl
  have g := total_order_on_same_stride
    (ConstStridedRandomAccessor.ctor 4 7) (ConstStridedRandomAccessor.ctor 4 7)
    (ConstStridedRandomAccessor.ctor 4 7)
    (StridedRandomAccessor.ctor 4 7) (StridedRandomAccessor.ctor 4 7)
    (StridedRandomAccessor.ctor 4 7) rfl rfl rfl rfl
  ⟨⟨rfl, rfl, rfl, rfl⟩,
    h.1.2.1.2.2.2.2 (by decide) (by decide),
    h.2.2.1.2.2.2.2 (by decide) (by decide),
    h.1.2.1.2.1,
    g.1.2.1.2.2.2.1 (by decide) (by decide),
    g.2.2.1.2.2.2.1 (by decide) (by decide),
    h.1.2.2.2.2.1 (by decide) (by decide),
    h.2.2.2.2.2.1 (by decide) (by decide),
    h.1.1.2.2.1,
    h.2.1.2.2.2.1,
    h.1.2.2.2.1⟩

/-! ## Stride invariance and the additive action of offsets -/

/-- C17: the stride is invariant under every operation: for an accessor `a` (read-only
`c` or mutable `m`) with stride `s` and any integer `k`, the accessors left behind and
returned by prefix and postfix `++` and `--`, by `+=` and `-=`, and the accessors
`a + k`, `k + a` and `a - k` all have stride exactly `s`. -/
theorem stride_invariant (c : ConstStridedRandomAccessor) (m : StridedRandomAccessor)
    (k : index_t) :
    ((c.operator_pre_inc.1.stride = c.stride ∧ c.operator_pre_inc.2.stride = c.stride
        ∧ c.operator_post_inc.1.stride = c.stride ∧ c.operator_post_inc.2.stride = c.stride
        ∧ c.operator_pre_dec.1.stride = c.stride ∧ c.operator_pre_dec.2.stride = c.stride
        ∧ c.operator_post_dec.1.stride = c.stride ∧ c.operator_post_dec.2.stride = c.stride)
      ∧ ((c.operator_plus_assign k).1.stride = c.stride
        ∧ (c.operator_plus_assign k).2.stride = c.stride
        ∧ (c.operator_minus_assign k).1.stride = c.stride
        ∧ (c.operator_minus_assign k).2.stride = c.stride)
      ∧ ((c.operator_plus k).stride = c.stride
        ∧ (ConstStridedRandomAccessor.operator_plus_left k c).stride = c.stride
        ∧ (c.operator_minus k).stride = c.stride))
    ∧ ((m.operator_pre_inc.1.stride = m.stride ∧ m.operator_pre_inc.2.stride = m.stride
        ∧ m.operator_post_inc.1.stride = m.stride ∧ m.operator_post_inc.2.stride = m.stride
        ∧ m.operator_pre_dec.1.stride = m.stride ∧ m.operator_pre_dec.2.stride = m.stride
        ∧ m.operator_post_dec.1.stride = m.stride ∧ m.operator_post_dec.2.stride = m.stride)
      ∧ ((m.operator_plus_assign k).1.stride = m.stride
        ∧ (m.operator_plus_assign k).2.stride = m.stride
        ∧ (m.operator_minus_assign k).1.stride = m.stride
        ∧ (m.operator_minus_assign k).2.stride = m.stride)
      ∧ ((m.operator_plus k).stride = m.stride
        ∧ (StridedRandomAccessor.operator_plus_left k m).stride = m.stride
        ∧ (m.operator_minus k).stride = m.stride)) :=
  ⟨⟨⟨rfl, rfl, rfl, rfl, rfl, rfl, rfl, rfl⟩, ⟨rfl, rfl, rfl, rfl⟩, ⟨rfl, rfl, rfl⟩⟩,
    ⟨⟨rfl, rfl, rfl, rfl, rfl, rfl, rfl, rfl⟩, ⟨rfl, rfl, rfl, rfl⟩, ⟨rfl, rfl, rfl⟩⟩⟩

/-- The read-only accessor after `n` successive prefix increments. -/
theorem ConstStridedRandomAccessor.iterate_pre_inc_const (n : Nat) (c : ConstStridedRandomAccessor) :
    (fun a : ConstStridedRandomAccessor => a.operator_pre_inc.1)^[n] c
      = ConstStridedRandomAccessor.ctor (c.ptr + (n : Int) * c.stride) c.stride := by
  induction n with
  | zero => simp [ConstStridedRandomAccessor.ctor]
  | succ n ih =>
    rw [Function.iterate_succ_apply', ih]
    simp only [ConstStridedRandomAccessor.operator_pre_inc, ConstStridedRandomAccessor.ctor,
      ConstStridedRandomAccessor.mk.injEq, and_true]
    push_cast
    ring

/-- The mutable accessor after `n` successive prefix increments. -/
theorem StridedRandomAccessor.iterate_pre_inc_mutable (n : Nat) (m : StridedRandomAccessor) :
    (fun a : StridedRandomAccessor => a.operator_pre_inc.1)^[n] m
      = StridedRandomAccessor.ctor (m.ptr + (n : Int) * m.stride) m.stride := by
  induction n with
  | zero => simp [StridedRandomAccessor.ctor, ConstStridedRandomAccessor.ctor]
  | succ n ih =>
    rw [Function.iterate_succ_apply', ih]
    simp only [StridedRandomAccessor.operator_pre_inc, StridedRandomAccessor.ctor,
      ConstStridedRandomAccessor.ctor, StridedRandomAccessor.mk.injEq,
      ConstStridedRandomAccessor.mk.injEq, and_true]
    push_cast
    ring

/-- C18: offsetting is an additive action of the integers: for an accessor `a`
(read-only `c` or mutable `m`) and integers `j`, `k`, `(a + j) + k == a + (j + k)`,
`a + 0 == a`, `a - k == a + (-k)`, and `n` successive prefix increments (`n >= 0`) leave
`a` equal to `a + n`; all equalities under `operator==`. -/
theorem offset_additive_action (c : ConstStridedRandomAccessor) (m : StridedRandomAccessor)
    (j k : index_t) (n : Nat) :
    (((c.operator_plus j).operator_plus k).operator_eq (c.operator_plus (j + k)) = true
      ∧ (c.operator_plus 0).operator_eq c = true
      ∧ (c.operator_minus k).operator_eq (c.operator_plus (-k)) = true
      ∧ ((fun a : ConstStridedRandomAccessor => a.operator_pre_inc.1)^[n] c).operator_eq
          (c.operator_plus (n : Int)) = true)
    ∧ (((m.operator_plus j).operator_plus k).operator_eq (m.operator_plus (j + k)) = true
      ∧ (m.operator_plus 0).operator_eq m = true
      ∧ (m.operator_minus k).operator_eq (m.operator_plus (-k)) = true
      ∧ ((fun a : StridedRandomAccessor => a.operator_pre_inc.1)^[n] m).operator_eq
          (m.operator_plus (n : Int)) = true) := by
  rw [ConstStridedRandomAccessor.iterate_pre_inc_const, StridedRandomAccessor.iterate_pre_inc_mutable]
  simp only [ConstStridedRandomAccessor.operator_plus, ConstStridedRandomAccessor.operator_minus,
    ConstStridedRandomAccessor.ctor, ConstStridedRandomAccessor.operator_eq,
    StridedRandomAccessor.operator_plus, StridedRandomAccessor.operator_minus,
    StridedRandomAccessor.ctor, StridedRandomAccessor.operator_eq,
    Bool.and_eq_true, beq_iff_eq, and_true]
  refine ⟨⟨?_, ?_, ?_⟩, ⟨?_, ?_, ?_⟩⟩ <;> ring

/-! ## Difference after an offset, and comparisons across strides -/

/-- C19: the difference undoes an offset only up to the stride factor: for an accessor
`a` (read-only `c` or mutable `m`) with stride `s` and any integer `k`,
`(a + k) - a = k * s` and `a - (a + k) = -(k * s)`; `(a + k) - a = k` holds for every
`k` only when `s = 1` (and then it does hold); and when `s = 0` the difference is `0`
for every `k`. -/
theorem diff_after_offset (c : ConstStridedRandomAccessor) (m : StridedRandomAccessor)
    (k : index_t) :
    ((c.operator_plus k).operator_diff c = k * c.stride
      ∧ c.operator_diff (c.operator_plus k) = -(k * c.stride)
      ∧ ((∀ i : index_t, (c.operator_plus i).operator_diff c = i) ↔ c.stride = 1)
      ∧ (c.stride = 0 → ∀ i : index_t, (c.operator_plus i).operator_diff c = 0))
    ∧ ((m.operator_plus k).operator_diff m.toConstStridedRandomAccessor = k * m.stride
      ∧ m.operator_diff (m.operator_plus k).toConstStridedRandomAccessor = -(k * m.stride)
      ∧ ((∀ i : index_t, (m.operator_plus i).operator_diff m.toConstStridedRandomAccessor = i)
          ↔ m.stride = 1)
      ∧ (m.stride = 0 →
          ∀ i : index_t, (m.operator_plus i).operator_diff m.toConstStridedRandomAccessor = 0)) := by
  have hc : ∀ i : index_t, (c.operator_plus i).operator_diff c = i * c.stride := by
    intro i
    simp [ConstStridedRandomAccessor.operator_plus, ConstStridedRandomAccessor.operator_diff,
      ConstStridedRandomAccessor.ctor]
  have hc2 : c.operator_diff (c.operator_plus k) = -(k * c.stride) := by
    simp [ConstStridedRandomAccessor.operator_plus, ConstStridedRandomAccessor.operator_diff,
      ConstStridedRandomAccessor.ctor]
  have hm : ∀ i : index_t,
      (m.operator_plus i).operator_diff m.toConstStridedRandomAccessor = i * m.stride := by
    intro i
    simp [StridedRandomAccessor.operator_plus, StridedRandomAccessor.operator_diff,
      StridedRandomAccessor.ctor, ConstStridedRandomAccessor.operator_diff,
      ConstStridedRandomAccessor.ctor]
  have hm2 : m.operator_diff (m.operator_plus k).toConstStridedRandomAccessor
      = -(k * m.stride) := by
    simp [StridedRandomAccessor.operator_plus, StridedRandomAccessor.operator_diff,
      StridedRandomAccessor.ctor, ConstStridedRandomAccessor.operator_diff,
      ConstStridedRandomAccessor.ctor]
  refine ⟨⟨hc k, hc2, ⟨?_, ?_⟩, ?_⟩, ⟨hm k, hm2, ⟨?_, ?_⟩, ?_⟩⟩
  · intro h
    have h1 := h 1
    rw [hc 1, one_mul] at h1
    exact h1
  · intro h i
    rw [hc i, h, mul_one]
  · intro h i
    rw [hc i, h, mul_zero]
  · intro h
    have h1 := h 1
    rw [hm 1, one_mul] at h1
    exact h1
  · intro h i
    rw [hm i, h, mul_one]
  · intro h i
    rw [hm i, h, mul_zero]

/-- Instance of `diff_after_offset` at accessors of stride `0`: whatever the offset,
the difference to the original accessor is `0`. -/
theorem diff_after_offset_witness :
    ((ConstStridedRandomAccessor.ctor 5 0).stride = 0
      ∧ ((ConstStridedRandomAccessor.ctor 5 0).operator_plus 7).operator_diff
          (ConstStridedRandomAccessor.ctor 5 0) = 0)
    ∧ ((StridedRandomAccessor.ctor 5 0).stride = 0
      ∧ ((StridedRandomAccessor.ctor 5 0).operator_plus 7).operator_diff
          (StridedRandomAccessor.ctor 5 0).toConstStridedRandomAccessor = 0) :=
  ⟨⟨rfl, (diff_after_offset (ConstStridedRandomAccessor.ctor 5 0)
      (StridedRandomAccessor.ctor 5 0) 7).1.2.2.2 rfl 7⟩,
    ⟨rfl, (diff_after_offset (ConstStridedRandomAccessor.ctor 5 0)
      (StridedRandomAccessor.ctor 5 0) 7).2.2.2.2 rfl 7⟩⟩

/-- C20: for some pairs of accessors the ordering operators are mutually inconsistent:
whenever `a` and `b` (read-only, or mutable `x` and `y` through the inherited
operators) are at the same position but have different strides, `a <= b` and `b <= a`
are both false while `a > b`, `b > a`, `a >= b` and `b >= a` are all true, and `a < b`,
`b < a` and `a == b` are all false; such pairs exist, so `>` is not asymmetric and
`a <= b` does not agree with `b >= a`. -/
theorem ordering_inconsistent_across_strides (a b : ConstStridedRandomAccessor)
    (x y : StridedRandomAccessor)
    (hp : a.ptr = b.ptr) (hs : a.stride ≠ b.stride)
    (hq : x.ptr = y.ptr) (ht : x.stride ≠ y.stride) :
    ((a.operator_le b = false ∧ b.operator_le a = false)
      ∧ (a.operator_gt b = true ∧ b.operator_gt a = true
        ∧ a.operator_ge b = true ∧ b.operator_ge a = true)
      ∧ (a.operator_lt b = false ∧ b.operator_lt a = false ∧ a.operator_eq b = false))
    ∧ ((x.operator_le y = false ∧ y.operator_le x = false)
      ∧ (x.operator_gt y = true ∧ y.operator_gt x = true
        ∧ x.operator_ge y = true ∧ y.operator_ge x = true)
      ∧ (x.operator_lt y = false ∧ y.operator_lt x = false ∧ x.operator_eq y = false))
    ∧ (∃ d e : ConstStridedRandomAccessor, d.ptr = e.ptr ∧ d.stride ≠ e.stride
        ∧ d.operator_gt e = true ∧ e.operator_gt d = true
        ∧ d.operator_le e = false ∧ e.operator_ge d = true) := by
  have key : ∀ d e : ConstStridedRandomAccessor, d.ptr = e.ptr → d.stride ≠ e.stride →
      (d.operator_le e = false ∧ e.operator_le d = false)
      ∧ (d.operator_gt e = true ∧ e.operator_gt d = true
        ∧ d.operator_ge e = true ∧ e.operator_ge d = true)
      ∧ (d.operator_lt e = false ∧ e.operator_lt d = false ∧ d.operator_eq e = false) := by
    intro d e h1 h2
    have h3 : ¬ e.stride = d.stride := fun h => h2 h.symm
    simp [ConstStridedRandomAccessor.operator_le, ConstStridedRandomAccessor.operator_gt,
      ConstStridedRandomAccessor.operator_ge, ConstStridedRandomAccessor.operator_lt,
      ConstStridedRandomAccessor.operator_eq, h1, h2, h3]
  refine ⟨key a b hp hs,
    key x.toConstStridedRandomAccessor y.toConstStridedRandomAccessor hq ht,
    ConstStridedRandomAccessor.ctor 0 1, ConstStridedRandomAccessor.ctor 0 2, ?_⟩
  decide

/-- Instance of `ordering_inconsistent_across_strides` at position `0` with strides `1`
and `2`. -/
theorem ordering_inconsistent_across_strides_witness :
    ((ConstStridedRandomAccessor.ctor 0 1).ptr = (ConstStridedRandomAccessor.ctor 0 2).ptr
      ∧ (ConstStridedRandomAccessor.ctor 0 1).stride ≠ (ConstStridedRandomAccessor.ctor 0 2).stride
      ∧ (StridedRandomAccessor.ctor 6 (-1)).ptr = (StridedRandomAccessor.ctor 6 4).ptr
      ∧ (StridedRandomAccessor.ctor 6 (-1)).stride ≠ (StridedRandomAccessor.ctor 6 4).stride)
    ∧ ((ConstStridedRandomAccessor.ctor 0 1).operator_gt (ConstStridedRandomAccessor.ctor 0 2) = true
      ∧ (ConstStridedRandomAccessor.ctor 0 2).operator_gt (ConstStridedRandomAccessor.ctor 0 1) = true
      ∧ (ConstStridedRandomAccessor.ctor 0 1).operator_ge (ConstStridedRandomAccessor.ctor 0 2) = true
      ∧ (ConstStridedRandomAccessor.ctor 0 2).operator_ge (ConstStridedRandomAccessor.ctor 0 1) = true)
    ∧ ((StridedRandomAccessor.ctor 6 (-1)).operator_le (StridedRandomAccessor.ctor 6 4) = false
      ∧ (StridedRandomAccessor.ctor 6 4).operator_le (StridedRandomAccessor.ctor 6 (-1)) = false) :=
  have h := ordering_inconsistent_across_strides
    (ConstStridedRandomAccessor.ctor 0 1) (ConstStridedRandomAccessor.ctor 0 2)
    (StridedRandomAccessor.ctor 6 (-1)) (StridedRandomAccessor.ctor 6 4)
    rfl (by decide) rfl (by decide)
  ⟨⟨rfl, by decide, rfl, by decide⟩, h.1.2.1, h.2.1.1⟩

/-! ## The paired accessor -/

/-- The constructor of `IndexedRandomAccessor` stores the two accessors it is given,
unchanged; the header defines no further member function for this class. -/
theorem IndexedRandomAccessor.ctor_fields {ValueAccessor IndexAccessor : Type}
    (va : ValueAccessor) (ia : IndexAccessor) :
    (IndexedRandomAccessor.ctor va ia).va = va ∧ (IndexedRandomAccessor.ctor va ia).ia = ia :=
  ⟨rfl, rfl⟩
